import Mathlib

/-!
Verification of the qutebrowser statusbar widget
(`qutebrowser/widgets/statusbar/bar.py`) and of two utility helpers
exercised by `tests/unit/utils/test_utils.py`.

The statusbar's observable state relevant to the message-display logic is
embedded as a record: the pending-message deque `_text_queue` (a list of
(error, text) pairs, head = oldest), whether the pop timer
`_text_pop_timer` is active, the displayed error flag (`self.error`), the
displayed temporary text (`self.txt.temptext`), and whether the command
widget is currently shown in the stacked layout.  Each method of the
Python class that touches this state becomes a state-transition function.
-/

namespace Statusbar

/-- The message-display state of the `StatusBar` widget:
`text_queue` embeds `self._text_queue` (a deque of `(error, text)` pairs,
head is the oldest element, `append` adds at the tail),
`timer_active` embeds `self._text_pop_timer.isActive()`,
`error` embeds the `error` pyqtProperty backed by `self._error`,
`temptext` embeds `self.txt.temptext`, and
`cmd_shown` records whether `self._stack`'s current widget is `self.cmd`
(true) or `self.txt` (false). -/
structure StatusBar where
  text_queue : List (Bool × String)
  timer_active : Bool
  error : Bool
  temptext : String
  cmd_shown : Bool
deriving Repr, DecidableEq

/-- The state established by `StatusBar.__init__`: empty deque, fresh
(inactive) timer, class attribute `_error = False`, empty temporary text,
and the trailing `self._hide_cmd_widget()` call leaves the text widget
current (with an empty queue the conditional body is skipped). -/
def initial : StatusBar :=
  { text_queue := [], timer_active := false, error := false,
    temptext := "", cmd_shown := false }

/-- Embeds `StatusBar._pop_text`: `popleft` on the deque; on `IndexError`
(empty deque) reset the error flag, clear the temporary text and stop the
timer; otherwise display the popped element's error flag and text. -/
def pop_text (s : StatusBar) : StatusBar :=
  match s.text_queue with
  | [] => { s with error := false, temptext := "", timer_active := false }
  | (e, t) :: rest => { s with text_queue := rest, error := e, temptext := t }

/-- Embeds `StatusBar.disp_error`: append `(True, text)` to the deque and
start the pop timer. -/
def disp_error (text : String) (s : StatusBar) : StatusBar :=
  { s with text_queue := s.text_queue ++ [(true, text)], timer_active := true }

/-- Embeds `StatusBar.disp_temp_text`: append `(False, text)` to the deque
and start the pop timer. -/
def disp_temp_text (text : String) (s : StatusBar) : StatusBar :=
  { s with text_queue := s.text_queue ++ [(false, text)], timer_active := true }

/-- Embeds `StatusBar._show_cmd_widget`: stop the pop timer and make the
command widget current. -/
def show_cmd_widget (s : StatusBar) : StatusBar :=
  { s with timer_active := false, cmd_shown := true }

/-- Embeds `StatusBar._hide_cmd_widget`: if the deque is non-empty and the
timer is not active, call `_pop_text` and start the timer; in any case
make the text widget current. -/
def hide_cmd_widget (s : StatusBar) : StatusBar :=
  if s.text_queue ≠ [] ∧ s.timer_active = false then
    { pop_text s with timer_active := true, cmd_shown := false }
  else
    { s with cmd_shown := false }

/-- Embeds `StatusBar.on_statusbar_message`: a truthy (non-empty) string
sets the temporary text, an empty one is ignored. -/
def on_statusbar_message (val : String) (s : StatusBar) : StatusBar :=
  if val = "" then s else { s with temptext := val }

/-- States reachable from `initial` by any sequence of the statusbar
operations named in the claims. -/
inductive Reachable : StatusBar → Prop
  | init : Reachable initial
  | disp_error (t : String) {s : StatusBar} :
      Reachable s → Reachable (disp_error t s)
  | disp_temp_text (t : String) {s : StatusBar} :
      Reachable s → Reachable (disp_temp_text t s)
  | pop {s : StatusBar} : Reachable s → Reachable (pop_text s)
  | show_cmd {s : StatusBar} : Reachable s → Reachable (show_cmd_widget s)
  | hide_cmd {s : StatusBar} : Reachable s → Reachable (hide_cmd_widget s)

/-- A widget geometry, embedding Qt's `QRect` as far as the statusbar
uses it (an opaque value carried by the `resized` signal). -/
structure QRect where
  x : Int
  y : Int
  w : Int
  h : Int
deriving Repr, DecidableEq

/-- A widget position, embedding Qt's `QPoint`. -/
structure QPoint where
  x : Int
  y : Int
deriving Repr, DecidableEq

/-- The signals the statusbar emits towards the completion widget. -/
inductive Signal where
  | resized (g : QRect)
  | moved (p : QPoint)
deriving Repr, DecidableEq

/-- Embeds `StatusBar.resizeEvent`: after delegating to
`QWidget.resizeEvent`, unconditionally emit `resized` with the widget's
geometry; the message-display state is untouched.  `geom` is
`self.geometry()` at event time (the new geometry). -/
def resizeEvent (s : StatusBar) (geom : QRect) : StatusBar × List Signal :=
  (s, [Signal.resized geom])

/-- Embeds `StatusBar.moveEvent`: after delegating to `QWidget.moveEvent`,
unconditionally emit `moved` with `e.pos()` (the new position).  The
message-display state is untouched. -/
def moveEvent (s : StatusBar) (pos : QPoint) : StatusBar × List Signal :=
  (s, [Signal.moved pos])

end Statusbar

namespace Utils

/-- The Unicode horizontal ellipsis appended by `elide`. -/
def ellipsisChar : Char := Char.ofNat 0x2026

/-- Modelled from the spec: `utils.elide` itself is not among the reviewed
sources, only its unit tests are.  Per the spec's error-handling section,
eliding to a zero size is invalid input on which the helper raises
`ValueError`; otherwise the text is returned unchanged when it fits, or
truncated to `length - 1` characters followed by an ellipsis. -/
def elide (text : String) (length : Nat) : Except String String :=
  if length < 1 then
    Except.error "length must be bigger than 1!"
  else if text.length ≤ length then
    Except.ok text
  else
    Except.ok ((text.take (length - 1)).push ellipsisChar)

/-- Longest digit run at the head of the character list, and the rest. -/
def takeDigits : List Char → List Char × List Char
  | [] => ([], [])
  | c :: cs =>
    if c.isDigit then
      let (ds, rest) := takeDigits cs
      (c :: ds, rest)
    else
      ([], c :: cs)

/-- Numeric value of a digit run. -/
def digitsToNat (ds : List Char) : Nat :=
  ds.foldl (fun a c => a * 10 + (c.toNat - 48)) 0

/-- One optional duration component `[0-9]+(\.[0-9])?u` for a unit
character `u`.  Returns the component's value in tenths of a unit and the
remaining input, or `none` when the component does not match here (a
failed component consumes nothing, like a failed optional regex group).
A fractional part whose unit letter does not follow cannot be rescued by
dropping the fraction, since the dot itself is not a unit letter. -/
def parseComponent (u : Char) (cs : List Char) : Option (Nat × List Char) :=
  let (ds, rest) := takeDigits cs
  if ds.isEmpty then none
  else
    match rest with
    | '.' :: d :: c :: cs3 =>
      if d.isDigit ∧ c = u then
        some (digitsToNat ds * 10 + (d.toNat - 48), cs3)
      else none
    | c :: cs2 => if c = u then some (digitsToNat ds * 10, cs2) else none
    | [] => none

/-- An optional component: value 0 and no input consumed when absent. -/
def tryComponent (u : Char) (cs : List Char) : Nat × List Char :=
  match parseComponent u cs with
  | some (v, rest) => (v, rest)
  | none => (0, cs)

/-- Skip the blanks matched by an interleaved blank run. -/
def skipSpaces : List Char → List Char
  | [] => []
  | c :: cs => if c = ' ' then skipSpaces cs else c :: cs

/-- Modelled from the spec: `utils.parse_duration` itself is not among the
reviewed sources, only its unit tests are.  Per the spec, a malformed
duration string raises `ValueError`.  A bare digit string is a number of
milliseconds; otherwise the whole string must consist of optional hours,
minutes and seconds components (digits with at most one fractional digit,
suffixed `h`, `m`, `s` in that order, optionally blank-separated), at
least implicitly non-empty, and the result is the total in
milliseconds. -/
def parse_duration (duration : String) : Except String Nat :=
  let cs := duration.toList
  if cs ≠ [] ∧ cs.all (fun c => c.isDigit) then
    Except.ok (digitsToNat cs)
  else
    let (hT, r1) := tryComponent 'h' cs
    let (mT, r2) := tryComponent 'm' (skipSpaces r1)
    let (sT, r3) := tryComponent 's' (skipSpaces r2)
    if r3 = [] ∧ cs ≠ [] then
      Except.ok (hT * 360000 + mT * 6000 + sT * 100)
    else
      Except.error ("Invalid duration: " ++ duration)

end Utils

namespace Statusbar

/-- Inductive invariant of the statusbar: while the command widget is
hidden, a non-empty pending-message queue implies the pop timer is
active.  (The converse fails: the tick that pops the last message leaves
the timer running until the next, empty, tick stops it.) -/
theorem reachable_queue_timer {s : StatusBar} (h : Reachable s) :
    s.cmd_shown = false → s.text_queue ≠ [] → s.timer_active = true := by
  induction h with
  | init => intro _ hq; exact absurd rfl hq
  | disp_error t _ _ => intro _ _; rfl
  | disp_temp_text t _ _ => intro _ _; rfl
  | @pop s _ ih =>
    intro hc hq
    rcases hqs : s.text_queue with _ | ⟨⟨e, t⟩, rest⟩
    · simp [pop_text, hqs] at hq
    · have h1 : (pop_text s).timer_active = s.timer_active := by
        simp [pop_text, hqs]
      have h2 : (pop_text s).cmd_shown = s.cmd_shown := by
        simp [pop_text, hqs]
      rw [h1]
      exact ih (h2 ▸ hc) (by simp [hqs])
  | show_cmd _ _ =>
    intro hc _
    simp [show_cmd_widget] at hc
  | @hide_cmd s _ ih =>
    intro _ hq
    by_cases hcond : s.text_queue ≠ [] ∧ s.timer_active = false
    · simp [hide_cmd_widget, hcond]
    · have hrw : hide_cmd_widget s = { s with cmd_shown := false } := by
        simp [hide_cmd_widget, hcond]
      rw [hrw] at hq ⊢
      simp only at hq ⊢
      rcases not_and_or.mp hcond with h1 | h2
      · exact absurd (not_not.mp h1) hq
      · exact Bool.not_eq_false _ ▸ h2

end Statusbar

namespace Statusbar

/-- C1 (counterexample): the claimed biconditional "queue non-empty iff
timer active" fails on a reachable state: popping the only queued message
leaves the queue empty with the timer still active.  Moreover the state
reached by `disp_error` then `_show_cmd_widget` is reachable, has a
non-empty queue and an inactive timer, refuting the other direction as
well. -/
theorem queue_nonempty_iff_timer_cex :
    (¬ ∀ s : StatusBar, Reachable s →
        (s.text_queue ≠ [] ↔ s.timer_active = true)) ∧
    (show_cmd_widget (disp_error "e" initial)).text_queue ≠ [] ∧
    (show_cmd_widget (disp_error "e" initial)).timer_active = false ∧
    Reachable (show_cmd_widget (disp_error "e" initial)) := by
  refine ⟨fun h => ?_, by decide, by decide,
    Reachable.show_cmd (Reachable.disp_error "e" Reachable.init)⟩
  have h2 := (h (pop_text (disp_error "x" initial))
      (Reachable.pop (Reachable.disp_error "x" Reachable.init))).mpr
  have h3 : (pop_text (disp_error "x" initial)).timer_active = true := by decide
  exact h2 h3 (by decide)

/-- C1 (amended): for every reachable state in which the command widget is
not shown, a non-empty pending-message queue implies the pop timer is
active.  (The full biconditional of the claim fails in both directions,
see the counterexample.) -/
theorem queue_nonempty_timer_active_of_hidden (s : StatusBar)
    (h : Reachable s) (hc : s.cmd_shown = false) (hq : s.text_queue ≠ []) :
    s.timer_active = true :=
  reachable_queue_timer h hc hq

/-- C1 witness: the amended invariant at the reachable state after one
`disp_error`. -/
theorem queue_nonempty_timer_active_of_hidden_witness :
    (disp_error "x" initial).timer_active = true :=
  queue_nonempty_timer_active_of_hidden _
    (Reachable.disp_error "x" Reachable.init) rfl (by decide)

/-- C2: on a non-empty queue, one `_pop_text` tick removes exactly the
head element, sets the displayed error flag to its severity, sets the
displayed temporary text to its text, and leaves the rest of the queue
unchanged in order (other fields untouched). -/
theorem pop_text_nonempty (s : StatusBar) (e : Bool) (t : String)
    (rest : List (Bool × String)) (h : s.text_queue = (e, t) :: rest) :
    pop_text s = { s with text_queue := rest, error := e, temptext := t } := by
  unfold pop_text
  rw [h]

/-- C2 witness: a concrete two-element queue. -/
theorem pop_text_nonempty_witness :
    pop_text { text_queue := [(true, "a"), (false, "b")], timer_active := true,
               error := false, temptext := "", cmd_shown := false } =
    { text_queue := [(false, "b")], timer_active := true, error := true,
      temptext := "a", cmd_shown := false } :=
  pop_text_nonempty _ true "a" [(false, "b")] rfl

/-- C3 (counterexample): the tick that pops the last pending message does
NOT stop the timer: on the reachable state after `disp_error "x"`, the
tick empties the queue yet the timer stays active. -/
theorem pop_last_stops_timer_cex :
    ¬ ∀ s : StatusBar, Reachable s → s.text_queue ≠ [] →
        (pop_text s).text_queue = [] → (pop_text s).timer_active = false := by
  intro h
  have h1 := h (disp_error "x" initial)
      (Reachable.disp_error "x" Reachable.init) (by decide) (by decide)
  exact absurd h1 (by decide)

/-- C3 (amended): the tick that pops the last pending message leaves the
timer state unchanged (so still running); the timer stops only on the
following tick, which finds the queue already empty. -/
theorem pop_last_keeps_timer_until_next_tick (s : StatusBar)
    (hq : s.text_queue ≠ []) (h : (pop_text s).text_queue = []) :
    (pop_text s).timer_active = s.timer_active ∧
    (pop_text (pop_text s)).timer_active = false := by
  rcases hqs : s.text_queue with _ | ⟨⟨e, t⟩, rest⟩
  · exact absurd hqs hq
  · have h1 : pop_text s = { s with text_queue := rest, error := e, temptext := t } := by
      unfold pop_text
      rw [hqs]
    rw [h1] at h ⊢
    have h2 : rest = [] := h
    subst h2
    exact ⟨rfl, rfl⟩

/-- C3 witness: the amended statement at the state after one
`disp_error`. -/
theorem pop_last_keeps_timer_until_next_tick_witness :
    (pop_text (disp_error "x" initial)).timer_active
        = (disp_error "x" initial).timer_active ∧
    (pop_text (pop_text (disp_error "x" initial))).timer_active = false :=
  pop_last_keeps_timer_until_next_tick _ (by decide) (by decide)

/-- C4: a `_pop_text` tick on an empty queue takes the fallback branch:
error flag reset to false, temporary text cleared, timer stopped, queue
still empty, and nothing raised (the embedding is total). -/
theorem pop_text_empty (s : StatusBar) (h : s.text_queue = []) :
    pop_text s = { s with error := false, temptext := "", timer_active := false } ∧
    (pop_text s).text_queue = [] := by
  have h1 : pop_text s
      = { s with error := false, temptext := "", timer_active := false } := by
    unfold pop_text
    rw [h]
  refine ⟨h1, ?_⟩
  rw [h1]
  exact h

/-- C4 witness: the empty-queue tick at the initial state. -/
theorem pop_text_empty_witness :
    pop_text initial
        = { initial with error := false, temptext := "", timer_active := false } ∧
    (pop_text initial).text_queue = [] :=
  pop_text_empty initial rfl

/-- C5: `disp_error` appends `(true, text)` at the tail and
`disp_temp_text` appends `(false, text)` at the tail; existing entries are
preserved in order (the new queue is the old queue plus one element at the
end). -/
theorem producers_append_fifo (s : StatusBar) (t : String) :
    (disp_error t s).text_queue = s.text_queue ++ [(true, t)] ∧
    (disp_temp_text t s).text_queue = s.text_queue ++ [(false, t)] :=
  ⟨rfl, rfl⟩

/-- C7: `resizeEvent` unconditionally emits exactly one `resized` signal
carrying the geometry, `moveEvent` unconditionally emits exactly one
`moved` signal carrying the position, and neither touches the
message-display state. -/
theorem resize_move_emit (s : StatusBar) (g : QRect) (p : QPoint) :
    (resizeEvent s g).2 = [Signal.resized g] ∧ (resizeEvent s g).1 = s ∧
    (moveEvent s p).2 = [Signal.moved p] ∧ (moveEvent s p).1 = s :=
  ⟨rfl, rfl, rfl, rfl⟩

/-- C8: `on_statusbar_message` with a non-empty string sets only the
displayed temporary text; with the empty string it is a no-op, leaving
every field unchanged. -/
theorem on_statusbar_message_spec (s : StatusBar) (v : String) (hv : v ≠ "") :
    on_statusbar_message v s = { s with temptext := v } ∧
    on_statusbar_message "" s = s := by
  constructor
  · unfold on_statusbar_message
    rw [if_neg hv]
  · rfl

/-- C8 witness: a concrete non-empty message at the initial state. -/
theorem on_statusbar_message_spec_witness :
    on_statusbar_message "foo" initial = { initial with temptext := "foo" } ∧
    on_statusbar_message "" initial = initial :=
  on_statusbar_message_spec initial "foo" (by decide)

/-- A concrete state with the command widget shown, the timer stopped and
one pending message, as produced by `disp_error` followed by
`_show_cmd_widget`. -/
def interludeState : StatusBar :=
  { text_queue := [(true, "m")], timer_active := false, error := false,
    temptext := "", cmd_shown := true }

/-- C9: `_show_cmd_widget` stops the timer but leaves the queue unchanged
on EVERY state `s₀`, timer running or not; `_hide_cmd_widget` on a state
with a non-empty queue and inactive timer pops and displays the head
message and restarts the timer, so pending messages survive a
command-entry interlude. -/
theorem cmd_widget_interlude (s₀ s : StatusBar) (e : Bool) (t : String)
    (rest : List (Bool × String)) (hq : s.text_queue = (e, t) :: rest)
    (ha : s.timer_active = false) :
    (show_cmd_widget s₀).text_queue = s₀.text_queue ∧
    (show_cmd_widget s₀).timer_active = false ∧
    hide_cmd_widget s = { s with
      text_queue := rest, error := e, temptext := t, timer_active := true, cmd_shown := false } := by
  refine ⟨rfl, rfl, ?_⟩
  have hcond : s.text_queue ≠ [] ∧ s.timer_active = false := by
    constructor
    · rw [hq]
      simp
    · exact ha
  unfold hide_cmd_widget
  rw [if_pos hcond]
  have h1 : pop_text s = { s with text_queue := rest, error := e, temptext := t } := by
    unfold pop_text
    rw [hq]
  rw [h1]

/-- C9 witness: the show half on the state after `disp_error "x"`, whose
timer IS active (so the stop is not vacuous), and the hide half on a
concrete one-message interlude state. -/
theorem cmd_widget_interlude_witness :
    (show_cmd_widget (disp_error "x" initial)).text_queue
        = (disp_error "x" initial).text_queue ∧
    (show_cmd_widget (disp_error "x" initial)).timer_active = false ∧
    hide_cmd_widget interludeState = { interludeState with
      text_queue := [], error := true, temptext := "m", timer_active := true, cmd_shown := false } :=
  cmd_widget_interlude (disp_error "x" initial) interludeState true "m" [] rfl rfl

/-- C10: the two producers change neither the displayed temporary text nor
the displayed error flag: display state is only written by `_pop_text` (or
`on_statusbar_message`). -/
theorem producers_preserve_display (s : StatusBar) (t : String) :
    (disp_error t s).temptext = s.temptext ∧ (disp_error t s).error = s.error ∧
    (disp_temp_text t s).temptext = s.temptext ∧
    (disp_temp_text t s).error = s.error :=
  ⟨rfl, rfl, rfl, rfl⟩

end Statusbar

namespace Utils

/-- C6: eliding any string to length 0 is an error, and each of the
malformed duration strings named by the claim is rejected with a
`ValueError`-style result rather than a value. -/
theorem utils_invalid_input_raises :
    (∀ text : String, elide text 0
        = Except.error "length must be bigger than 1!") ∧
    parse_duration "-1s" = Except.error "Invalid duration: -1s" ∧
    parse_duration "" = Except.error "Invalid duration: " ∧
    parse_duration "h" = Except.error "Invalid duration: h" ∧
    parse_duration "34ss" = Except.error "Invalid duration: 34ss" ∧
    parse_duration "5s10m" = Except.error "Invalid duration: 5s10m" :=
  ⟨fun _ => rfl, rfl, rfl, rfl, rfl, rfl⟩

end Utils
